import Mathlib

/-!
Shallow embedding of the ink-vision interactive compositing engine.

The model follows the TypeScript source:
- `OverlayConfig`, its default value, and the partial-merge update
  (`App.tsx`, `onUpdateConfig`),
- the discrete scale adjustment (`TattooCanvas.tsx`, `adjustScale`),
- the render pipeline `draw` (`TattooCanvas.tsx`), modelled as the record of
  drawing commands it issues on the 2D context,
- the export path (`TattooCanvas.tsx` `exportImage`, `App.tsx` `handleDownload`),
- the pointer gesture handlers (`TattooCanvas.tsx` `handleStart`/`handleMove`),
- the generation flow (`TattooGenerator.tsx` `handleGenerate`).

Numbers are modelled as rationals.  Where JavaScript division by zero matters
(the foreground aspect-ratio division), IEEE-style non-finite results are
modelled explicitly by the `JNum` type.
-/

/-- Blend modes, from `types.ts` (`BlendMode`). -/
inductive BlendMode where
  | multiply
  | screen
  | overlay
  | darken
  | normal
deriving DecidableEq, Repr

/-- Tattoo styles, from `types.ts` (`TattooStyle`). -/
inductive TattooStyle where
  | traditional
  | geometric
  | watercolor
  | fineLine
  | dotwork
  | realistic
  | japanese
  | cyberpunk
deriving DecidableEq, Repr

/-- The transform/filter state, from `App.tsx` (the `config` useState record;
the runtime record carries hue/saturation/brightness even though `types.ts`
omits them). -/
structure OverlayConfig where
  scale : ℚ
  rotation : ℚ
  opacity : ℚ
  offsetX : ℚ
  offsetY : ℚ
  blendMode : BlendMode
  hue : ℚ
  saturation : ℚ
  brightness : ℚ
deriving DecidableEq, Repr

/-- The initial config value, from `App.tsx` lines 12-22. -/
def defaultConfig : OverlayConfig :=
  { scale := 1
    rotation := 0
    opacity := 0.8
    offsetX := 0
    offsetY := 0
    blendMode := BlendMode.multiply
    hue := 0
    saturation := 100
    brightness := 100 }

/-- A `Partial<OverlayConfig>` value: each field optionally present. -/
structure ConfigPatch where
  scale : Option ℚ := none
  rotation : Option ℚ := none
  opacity : Option ℚ := none
  offsetX : Option ℚ := none
  offsetY : Option ℚ := none
  blendMode : Option BlendMode := none
  hue : Option ℚ := none
  saturation : Option ℚ := none
  brightness : Option ℚ := none
deriving DecidableEq, Repr

/-- The update entry point, from `App.tsx` line 113:
`onUpdateConfig={(c) => setConfig(prev => ({ ...prev, ...c }))}` —
a plain spread merge of the partial over the previous config. -/
def updateConfig (s : OverlayConfig) (p : ConfigPatch) : OverlayConfig :=
  { scale := p.scale.getD s.scale
    rotation := p.rotation.getD s.rotation
    opacity := p.opacity.getD s.opacity
    offsetX := p.offsetX.getD s.offsetX
    offsetY := p.offsetY.getD s.offsetY
    blendMode := p.blendMode.getD s.blendMode
    hue := p.hue.getD s.hue
    saturation := p.saturation.getD s.saturation
    brightness := p.brightness.getD s.brightness }

/-- The discrete scale adjustment, from `TattooCanvas.tsx` lines 149-152:
`const newScale = Math.min(5, Math.max(0.05, config.scale + delta));
 onUpdateConfig({ scale: newScale });`. -/
def adjustScale (s : OverlayConfig) (delta : ℚ) : OverlayConfig :=
  let newScale : ℚ := min 5 (max 0.05 (s.scale + delta))
  updateConfig s { scale := some newScale }

/-- The config update performed when a new background photo is uploaded, from
`App.tsx` line 31: `setConfig(prev => ({ ...prev, offsetX: 0, offsetY: 0 }))`. -/
def uploadReset (s : OverlayConfig) : OverlayConfig :=
  { s with offsetX := 0, offsetY := 0 }

/-! ## JavaScript numbers for the aspect-ratio division

`draw` computes `height = (tattoo.height / tattoo.width) * width`.  In
JavaScript a division by zero yields Infinity (or NaN for 0/0), so the result
is modelled in an extended number type wherever that division flows. -/

/-- A JavaScript number restricted to the values reachable here: a finite
rational, or one of the IEEE non-finite values. -/
inductive JNum where
  | fin (q : ℚ)
  | posInf
  | negInf
  | nan
deriving DecidableEq, Repr

/-- JavaScript division `a / b` on exact inputs: finite quotient when `b ≠ 0`,
otherwise `±Infinity` by the sign of `a`, and `NaN` for `0 / 0`. -/
def jsDiv (a b : ℚ) : JNum :=
  if b = 0 then
    if 0 < a then JNum.posInf
    else if a < 0 then JNum.negInf
    else JNum.nan
  else JNum.fin (a / b)

/-- JavaScript multiplication of a (possibly non-finite) value by a finite
rational. -/
def jsMul (a : JNum) (q : ℚ) : JNum :=
  match a with
  | JNum.fin x => JNum.fin (x * q)
  | JNum.posInf => if 0 < q then JNum.posInf else if q < 0 then JNum.negInf else JNum.nan
  | JNum.negInf => if 0 < q then JNum.negInf else if q < 0 then JNum.posInf else JNum.nan
  | JNum.nan => JNum.nan

/-! ## The render pipeline -/

/-- A decoded bitmap handle: pixel dimensions, plus whether drawing it taints
the canvas (a cross-origin source served without CORS clearance). -/
structure Bitmap where
  width : ℚ
  height : ℚ
  taints : Bool
deriving DecidableEq, Repr

/-- The foreground drawing command issued by `draw` when a tattoo is present,
from `TattooCanvas.tsx` lines 56-71.  The context-state calls map to fields:
`globalAlpha`/`globalCompositeOperation`/`filter` to `alpha`/`blend`/
`hue, sat, bri`; `ctx.translate(canvas.width/2 + offsetX, canvas.height/2 +
offsetY)` to `tx, ty`; `ctx.rotate(rotation * π / 180)` to `angleDeg` (the
angle recorded in degrees; canvas y points down, so a positive angle rotates
clockwise on screen); `ctx.drawImage(tattoo, -width/2, -height/2, width,
height)` to `x, y, w, h`. -/
structure FgCmd where
  alpha : ℚ
  blend : BlendMode
  hue : ℚ
  sat : ℚ
  bri : ℚ
  tx : ℚ
  ty : ℚ
  angleDeg : ℚ
  x : ℚ
  y : JNum
  w : ℚ
  h : JNum
deriving DecidableEq, Repr

/-- Builds the foreground command of `draw` for background `bg`, tattoo `t`
and config `cfg`:
`const baseWidth = canvas.width * 0.3; const width = baseWidth * config.scale;
 const height = (tattoo.height / tattoo.width) * width;` with the canvas sized
to `bg` (lines 49-50), then the save/alpha/blend/filter/translate/rotate/
drawImage sequence of lines 61-71. -/
def fgCmdOf (bg : Bitmap) (t : Bitmap) (cfg : OverlayConfig) : FgCmd :=
  let baseWidth : ℚ := bg.width * 0.3
  let w : ℚ := baseWidth * cfg.scale
  let h : JNum := jsMul (jsDiv t.height t.width) w
  { alpha := cfg.opacity
    blend := cfg.blendMode
    hue := cfg.hue
    sat := cfg.saturation
    bri := cfg.brightness
    tx := bg.width / 2 + cfg.offsetX
    ty := bg.height / 2 + cfg.offsetY
    angleDeg := cfg.rotation
    x := -(w / 2)
    y := jsMul h (-(1 / 2 : ℚ))
    w := w
    h := h }

/-- The canvas after one run of `draw` (`TattooCanvas.tsx` lines 43-74):
`canvas.width/height` are set to the background's native pixel dimensions, the
canvas is cleared, the background is drawn at the origin (`base`), and the
foreground command is issued iff a tattoo source is present and loaded.
`tainted` records whether any drawn bitmap taints the canvas. -/
structure CanvasSnap where
  width : ℚ
  height : ℚ
  base : Option Bitmap
  fgCmd : Option FgCmd
  tainted : Bool
deriving DecidableEq, Repr

/-- One run of `draw` with the decoded background `bg` present (the source
returns early when the main image is missing) and the tattoo slot `fg`
(present iff `tattooSrc && images.current.tattoo`). -/
def drawCanvas (bg : Bitmap) (fg : Option Bitmap) (cfg : OverlayConfig) : CanvasSnap :=
  { width := bg.width
    height := bg.height
    base := some bg
    fgCmd := fg.map (fun t => fgCmdOf bg t cfg)
    tainted := bg.taints || (fg.map Bitmap.taints).getD false }

/-- Modelled from the spec (§4.4 steps 1-3, §8): the background-only output,
`bg` drawn unscaled at the origin into a buffer of its native dimensions, with
no foreground command.  Stated separately from `drawCanvas` so that the two
can be compared. -/
def spec_backgroundOnly (bg : Bitmap) : CanvasSnap :=
  { width := bg.width
    height := bg.height
    base := some bg
    fgCmd := none
    tainted := bg.taints }

/-- The device-space image of a local point `(px, py)` under the context
transform `translate(tx, ty)` followed by a rotation whose cosine/sine pair is
`(c, s)` (canvas 2D transform composition: device = translate ∘ rotate ∘
local). -/
def localToDevice (tx ty c s px py : ℚ) : ℚ × ℚ :=
  (tx + c * px - s * py, ty + s * px + c * py)

/-! ## Export -/

/-- An encoded PNG data URL, abstracted as the dimensions and content of the
canvas it encodes (`canvas.toDataURL('image/png')` serializes the current
canvas pixels at the canvas's pixel size). -/
structure Encoded where
  width : ℚ
  height : ℚ
  base : Option Bitmap
  fgCmd : Option FgCmd
deriving DecidableEq, Repr

/-- `exportImage` from `TattooCanvas.tsx` lines 32-41:
`try { return canvasRef.current?.toDataURL('image/png') || null } catch { return
null }`.  The canvas ref may be absent (`none`); `toDataURL` throws exactly
when the canvas is tainted, otherwise it returns a non-empty data URL of the
current canvas content. -/
def exportImage (canvas : Option CanvasSnap) : Option Encoded :=
  match canvas with
  | none => none
  | some cv =>
      if cv.tainted then none
      else some { width := cv.width, height := cv.height, base := cv.base, fgCmd := cv.fgCmd }

/-- Outcome of the download handler: either a file download was triggered or
the failure alert was shown. -/
inductive DownloadOutcome where
  | saved (img : Encoded)
  | alerted
deriving DecidableEq, Repr

/-- `handleDownload` from `App.tsx` lines 37-49: a truthy data URL triggers the
download link, a null result shows the failure alert. -/
def handleDownload (r : Option Encoded) : DownloadOutcome :=
  match r with
  | some img => DownloadOutcome.saved img
  | none => DownloadOutcome.alerted

/-- A freshly mounted `<canvas>` element before any `draw` has run: default
300×150 pixel size, nothing drawn, not tainted. -/
def initialCanvas : CanvasSnap :=
  { width := 300, height := 150, base := none, fgCmd := none, tainted := false }

/-! ## Pointer gesture tracker -/

/-- The component state the gesture handlers read and write: the `isDragging`
flag, `lastMousePos`, and the overlay config (updated through
`onUpdateConfig`). -/
structure UIState where
  isDragging : Bool
  lastX : ℚ
  lastY : ℚ
  cfg : OverlayConfig
deriving DecidableEq, Repr

/-- `handleStart` from `TattooCanvas.tsx` lines 126-130: a no-op without a
tattoo source; otherwise enter dragging and record the pointer position. -/
def handleStart (fgPresent : Bool) (x y : ℚ) (s : UIState) : UIState :=
  if !fgPresent then s
  else { s with isDragging := true, lastX := x, lastY := y }

/-- `handleMove` from `TattooCanvas.tsx` lines 132-147: a no-op unless
dragging; otherwise the device-space deltas from the last recorded position
are scaled by `canvas.width / rect.width` and `canvas.height / rect.height`
(native pixel size over displayed size; a rendered element's bounding rect has
nonzero extent) and added to the offsets, and the recorded position is
updated.  `rect` is `getBoundingClientRect()`, `none` when the canvas element
is absent. -/
def handleMove (rect : Option (ℚ × ℚ)) (nativeW nativeH : ℚ) (x y : ℚ)
    (s : UIState) : UIState :=
  if !s.isDragging then s
  else
    let dx := x - s.lastX
    let dy := y - s.lastY
    match rect with
    | none => { s with lastX := x, lastY := y }
    | some (rw, rh) =>
        let scaleX := nativeW / rw
        let scaleY := nativeH / rh
        { s with
            cfg := updateConfig s.cfg
              { offsetX := some (s.cfg.offsetX + dx * scaleX)
                offsetY := some (s.cfg.offsetY + dy * scaleY) }
            lastX := x
            lastY := y }

/-- The `onMouseUp`/`onMouseLeave`/`onTouchEnd` handlers, all
`setIsDragging(false)`. -/
def handleEnd (s : UIState) : UIState :=
  { s with isDragging := false }

/-- A pointer event as seen by the handlers. -/
inductive PEvent where
  | down (x y : ℚ)
  | move (x y : ℚ)
  | up
  | leave
deriving DecidableEq, Repr

/-- Dispatch of one pointer event to the handlers, in an environment with a
fixed foreground presence, canvas native size, and bounding rect. -/
def stepEvent (fgPresent : Bool) (rect : Option (ℚ × ℚ)) (nativeW nativeH : ℚ)
    (s : UIState) (e : PEvent) : UIState :=
  match e with
  | PEvent.down x y => handleStart fgPresent x y s
  | PEvent.move x y => handleMove rect nativeW nativeH x y s
  | PEvent.up => handleEnd s
  | PEvent.leave => handleEnd s

/-- Runs a sequence of pointer events. -/
def runEvents (fgPresent : Bool) (rect : Option (ℚ × ℚ)) (nativeW nativeH : ℚ)
    (s : UIState) (es : List PEvent) : UIState :=
  es.foldl (stepEvent fgPresent rect nativeW nativeH) s

/-! ## Design generation flow -/

/-- A generated design, from `types.ts` (`TattooDesign`). -/
structure TattooDesign where
  id : String
  url : String
  prompt : String
  style : TattooStyle
deriving DecidableEq, Repr

/-- The generator component state touched by `handleGenerate`
(`TattooGenerator.tsx`). -/
structure GenState where
  prompt : String
  selectedStyle : TattooStyle
  isGenerating : Bool
  error : Option String
  history : List TattooDesign
  activeDesignId : Option String
deriving DecidableEq, Repr

/-- The outcome of awaiting `generateTattooDesign`: a usable image URL, a null
return (no usable image), or a thrown error. -/
inductive GenResult where
  | ok (url : String)
  | noImage
  | exn
deriving DecidableEq, Repr

/-- JavaScript `String.prototype.trim`: the string with whitespace removed
from both ends. -/
def strTrim (s : String) : String :=
  String.mk (((s.data.dropWhile Char.isWhitespace).reverse.dropWhile
    Char.isWhitespace).reverse)

/-- `const finalPrompt = overridePrompt || prompt;` — JavaScript `||` falls
through on the empty string as well as on `undefined`. -/
def finalPromptOf (s : GenState) (overridePrompt : Option String) : String :=
  match overridePrompt with
  | some p => if p = "" then s.prompt else p
  | none => s.prompt

/-- `handleGenerate` from `TattooGenerator.tsx` lines 59-86, as a function of
the awaited generation outcome `res` and the fresh id `newId`
(`Date.now().toString()`): guard on an all-whitespace prompt or an in-flight
generation; on success prepend the new design to history and select it; on a
null result or a thrown error set the corresponding message.  The prompt text
is never written. -/
def handleGenerate (s : GenState) (overridePrompt : Option String)
    (res : GenResult) (newId : String) : GenState :=
  let finalPrompt := finalPromptOf s overridePrompt
  if strTrim finalPrompt = "" || s.isGenerating then s
  else
    match res with
    | GenResult.ok url =>
        let newDesign : TattooDesign :=
          { id := newId, url := url, prompt := finalPrompt, style := s.selectedStyle }
        { s with
            error := none
            history := newDesign :: s.history
            activeDesignId := some newId
            isGenerating := false }
    | GenResult.noImage =>
        { s with
            error := some "Generation failed. Try being more descriptive."
            isGenerating := false }
    | GenResult.exn =>
        { s with
            error := some "Connection error. Please try again."
            isGenerating := false }

/-! ## Claims -/

/-- Claim C1, counterexample: the update entry point does not clamp.
`update(s, {scale: 999})` with `s` the default config yields a state whose
scale is 999 — not the configured maximum 5, and outside the documented
domain. -/
theorem update_scale999_not_clamped_cex :
    (updateConfig defaultConfig { scale := some 999 }).scale = 999 ∧
    (999 : ℚ) ≠ 5 ∧
    ¬ (updateConfig defaultConfig { scale := some 999 }).scale ≤ 5 := by
  refine ⟨rfl, by norm_num, ?_⟩
  show ¬ (999 : ℚ) ≤ 5
  norm_num

/-- Claim C1, amended: the update entry point is a plain partial merge that
applies given field values verbatim (so `update(s, {scale: 999})` yields scale
999); domain enforcement for scale exists only in the discrete `adjustScale`
operation, whose result always lies in the configured `[0.05, 5]` and which
leaves every other field unchanged. -/
theorem update_merges_and_adjustScale_clamps
    (s : OverlayConfig) (p : ConfigPatch) (v δ : ℚ) :
    (p.scale = some v → (updateConfig s p).scale = v) ∧
    0.05 ≤ (adjustScale s δ).scale ∧
    (adjustScale s δ).scale ≤ 5 ∧
    (adjustScale s δ).rotation = s.rotation ∧
    (adjustScale s δ).opacity = s.opacity ∧
    (adjustScale s δ).offsetX = s.offsetX ∧
    (adjustScale s δ).offsetY = s.offsetY ∧
    (adjustScale s δ).blendMode = s.blendMode ∧
    (adjustScale s δ).hue = s.hue ∧
    (adjustScale s δ).saturation = s.saturation ∧
    (adjustScale s δ).brightness = s.brightness := by
  refine ⟨?_, ?_, ?_, rfl, rfl, rfl, rfl, rfl, rfl, rfl, rfl⟩
  · intro h
    simp [updateConfig, h]
  · show (0.05 : ℚ) ≤ min 5 (max 0.05 (s.scale + δ))
    exact le_min (by norm_num) (le_max_left _ _)
  · show min 5 (max 0.05 (s.scale + δ)) ≤ (5 : ℚ)
    exact min_le_left _ _

/-- Witness for `update_merges_and_adjustScale_clamps` at the default config,
the patch `{scale: 999}`, and delta 100. -/
theorem update_merges_and_adjustScale_clamps_witness :
    (updateConfig defaultConfig { scale := some 999 }).scale = 999 ∧
    0.05 ≤ (adjustScale defaultConfig 100).scale ∧
    (adjustScale defaultConfig 100).scale ≤ 5 := by
  obtain ⟨h1, h2, h3, -⟩ :=
    update_merges_and_adjustScale_clamps defaultConfig { scale := some 999 } 999 100
  exact ⟨h1 rfl, h2, h3⟩

/-- Claim C2: for every background bitmap, foreground slot and state, the
output buffer of `draw` has width and height exactly the background's native
pixel dimensions (the display size never enters the computation). -/
theorem output_buffer_matches_background_dims
    (bg : Bitmap) (fg : Option Bitmap) (cfg : OverlayConfig) :
    (drawCanvas bg fg cfg).width = bg.width ∧
    (drawCanvas bg fg cfg).height = bg.height :=
  ⟨rfl, rfl⟩

/-- Claim C10: uploading a new background photo resets exactly `offsetX` and
`offsetY` to 0 and leaves every other field of the config unchanged. -/
theorem upload_resets_only_offsets (s : OverlayConfig) :
    (uploadReset s).offsetX = 0 ∧
    (uploadReset s).offsetY = 0 ∧
    (uploadReset s).scale = s.scale ∧
    (uploadReset s).rotation = s.rotation ∧
    (uploadReset s).opacity = s.opacity ∧
    (uploadReset s).blendMode = s.blendMode ∧
    (uploadReset s).hue = s.hue ∧
    (uploadReset s).saturation = s.saturation ∧
    (uploadReset s).brightness = s.brightness :=
  ⟨rfl, rfl, rfl, rfl, rfl, rfl, rfl, rfl, rfl⟩

/-- Claim C3: for a present foreground of nonzero native width, the drawn
target width is `backgroundWidth * 0.3 * scale` and the target height is
`targetWidth * (foregroundNativeHeight / foregroundNativeWidth)`; at scale 1
the width is exactly `0.3 * backgroundWidth`. -/
theorem foreground_sizing_rule
    (bg t : Bitmap) (cfg : OverlayConfig) (hw : t.width ≠ 0) :
    (drawCanvas bg (some t) cfg).fgCmd = some (fgCmdOf bg t cfg) ∧
    (fgCmdOf bg t cfg).w = bg.width * 0.3 * cfg.scale ∧
    (fgCmdOf bg t cfg).h =
      JNum.fin ((fgCmdOf bg t cfg).w * (t.height / t.width)) ∧
    (cfg.scale = 1 → (fgCmdOf bg t cfg).w = 0.3 * bg.width) := by
  refine ⟨rfl, rfl, ?_, ?_⟩
  · show jsMul (jsDiv t.height t.width) (bg.width * 0.3 * cfg.scale) = _
    simp only [jsDiv, hw, if_false, jsMul]
    exact congrArg JNum.fin (mul_comm _ _)
  · intro h1
    show bg.width * 0.3 * cfg.scale = 0.3 * bg.width
    rw [h1]
    ring

/-- Witness for `foreground_sizing_rule`: a 100×80 background and a 50×25
foreground at the default config (scale 1). -/
theorem foreground_sizing_rule_witness :
    (drawCanvas ⟨100, 80, false⟩ (some ⟨50, 25, false⟩) defaultConfig).fgCmd =
      some (fgCmdOf ⟨100, 80, false⟩ ⟨50, 25, false⟩ defaultConfig) ∧
    (fgCmdOf ⟨100, 80, false⟩ ⟨50, 25, false⟩ defaultConfig).w =
      (100 : ℚ) * 0.3 * 1 ∧
    (fgCmdOf ⟨100, 80, false⟩ ⟨50, 25, false⟩ defaultConfig).h =
      JNum.fin ((fgCmdOf ⟨100, 80, false⟩ ⟨50, 25, false⟩ defaultConfig).w *
        ((25 : ℚ) / 50)) ∧
    (fgCmdOf ⟨100, 80, false⟩ ⟨50, 25, false⟩ defaultConfig).w = 0.3 * 100 := by
  obtain ⟨h1, h2, h3, h4⟩ :=
    foreground_sizing_rule ⟨100, 80, false⟩ ⟨50, 25, false⟩ defaultConfig
      (by norm_num)
  exact ⟨h1, h2, h3, h4 rfl⟩

/-- Claim C6: the spec requires a present zero-width foreground to be treated
as absent (background-only output, no division by zero).  The code has no such
guard: at a 100×100 background and a 0-wide, 5-tall foreground it computes
`height = 5 / 0 = Infinity` and still issues the foreground draw command, so
the output is not the background-only buffer. -/
theorem zero_width_foreground_still_drawn :
    (drawCanvas ⟨100, 100, false⟩ (some ⟨0, 5, false⟩) defaultConfig).fgCmd =
      some (fgCmdOf ⟨100, 100, false⟩ ⟨0, 5, false⟩ defaultConfig) ∧
    (fgCmdOf ⟨100, 100, false⟩ ⟨0, 5, false⟩ defaultConfig).h = JNum.posInf ∧
    drawCanvas ⟨100, 100, false⟩ (some ⟨0, 5, false⟩) defaultConfig ≠
      spec_backgroundOnly ⟨100, 100, false⟩ := by
  refine ⟨rfl, ?_, ?_⟩
  · show jsMul (jsDiv 5 0) ((100 : ℚ) * 0.3 * 1) = JNum.posInf
    norm_num [jsDiv, jsMul]
  · intro h
    have : (drawCanvas ⟨100, 100, false⟩ (some ⟨0, 5, false⟩)
        defaultConfig).fgCmd = (spec_backgroundOnly ⟨100, 100, false⟩).fgCmd :=
      congrArg CanvasSnap.fgCmd h
    simp [drawCanvas, spec_backgroundOnly] at this

/-- Claim C7: for a present foreground of nonzero native width, the foreground
draw is issued with translate `(bgWidth/2 + offsetX, bgHeight/2 + offsetY)`,
rotate by `rotation` degrees (clockwise on the y-down canvas), and dest
rectangle centered on the local origin — so the device-space center of the
drawn foreground equals the translate point for every rotation cosine/sine
pair, i.e. the rotation is about that center. -/
theorem foreground_placement_and_rotation_center
    (bg t : Bitmap) (cfg : OverlayConfig) (c s : ℚ) (hw : t.width ≠ 0) :
    (fgCmdOf bg t cfg).tx = bg.width / 2 + cfg.offsetX ∧
    (fgCmdOf bg t cfg).ty = bg.height / 2 + cfg.offsetY ∧
    (fgCmdOf bg t cfg).angleDeg = cfg.rotation ∧
    (fgCmdOf bg t cfg).x + (fgCmdOf bg t cfg).w / 2 = 0 ∧
    (∃ hq : ℚ, (fgCmdOf bg t cfg).h = JNum.fin hq ∧
      (fgCmdOf bg t cfg).y = JNum.fin (-(hq / 2)) ∧
      localToDevice (fgCmdOf bg t cfg).tx (fgCmdOf bg t cfg).ty c s
          ((fgCmdOf bg t cfg).x + (fgCmdOf bg t cfg).w / 2) (-(hq / 2) + hq / 2) =
        ((fgCmdOf bg t cfg).tx, (fgCmdOf bg t cfg).ty)) ∧
    (fgCmdOf bg t cfg).w = bg.width * 0.3 * cfg.scale := by
  have hx : (fgCmdOf bg t cfg).x + (fgCmdOf bg t cfg).w / 2 = 0 := by
    show -(bg.width * 0.3 * cfg.scale / 2) + bg.width * 0.3 * cfg.scale / 2 = 0
    ring
  refine ⟨rfl, rfl, rfl, hx, ?_, rfl⟩
  refine ⟨t.height / t.width * (bg.width * 0.3 * cfg.scale), ?_, ?_, ?_⟩
  · show jsMul (jsDiv t.height t.width) (bg.width * 0.3 * cfg.scale) = _
    simp only [jsDiv, hw, if_false, jsMul]
  · show jsMul (jsMul (jsDiv t.height t.width) (bg.width * 0.3 * cfg.scale))
        (-(1 / 2 : ℚ)) = _
    simp only [jsDiv, hw, if_false, jsMul]
    exact congrArg JNum.fin (by ring)
  · rw [hx]
    show localToDevice _ _ c s 0 (-(_ / 2) + _ / 2) = _
    rw [neg_add_cancel]
    simp [localToDevice]

/-- Witness for `foreground_placement_and_rotation_center`: a 100×80
background, a 50×25 foreground, the default config, and the cosine/sine pair
of a 90° rotation. -/
theorem foreground_placement_and_rotation_center_witness :
    (fgCmdOf ⟨100, 80, false⟩ ⟨50, 25, false⟩ defaultConfig).tx =
      (100 : ℚ) / 2 + 0 ∧
    (fgCmdOf ⟨100, 80, false⟩ ⟨50, 25, false⟩ defaultConfig).ty =
      (80 : ℚ) / 2 + 0 ∧
    (fgCmdOf ⟨100, 80, false⟩ ⟨50, 25, false⟩ defaultConfig).angleDeg = 0 := by
  obtain ⟨h1, h2, h3, -⟩ :=
    foreground_placement_and_rotation_center ⟨100, 80, false⟩ ⟨50, 25, false⟩
      defaultConfig 0 1 (by norm_num)
  exact ⟨h1, h2, h3⟩

/-- Claim C8: with no foreground present, `draw` produces exactly the
background drawn unscaled at the origin at its native resolution, and the
output does not depend on the state in any way. -/
theorem background_only_render_ignores_state
    (bg : Bitmap) (cfg cfg' : OverlayConfig) :
    drawCanvas bg none cfg = spec_backgroundOnly bg ∧
    drawCanvas bg none cfg = drawCanvas bg none cfg' := by
  constructor <;> simp [drawCanvas, spec_backgroundOnly]

/-- Claim C4: the gesture tracker is the specified two-state machine: a
pointerDown without a foreground changes nothing; with a foreground it enters
dragging and records the pointer; each move while dragging adds the device
deltas times `native/displayed` to the offsets and re-records the pointer;
moves while not dragging (after up/leave) are no-ops; and the concrete
round-trip down(10,10), move(15,14), up over a 200×200 native canvas displayed
at 100×100 adds exactly (10, 8) to the offsets exactly once. -/
theorem gesture_state_machine
    (x y nW nH rw rh a b : ℚ) (rect : Option (ℚ × ℚ)) (s : UIState) :
    handleStart false x y s = s ∧
    ((handleStart true x y s).isDragging = true ∧
     (handleStart true x y s).lastX = x ∧
     (handleStart true x y s).lastY = y ∧
     (handleStart true x y s).cfg = s.cfg) ∧
    (s.isDragging = true →
      (handleMove (some (rw, rh)) nW nH x y s).cfg.offsetX =
        s.cfg.offsetX + (x - s.lastX) * (nW / rw) ∧
      (handleMove (some (rw, rh)) nW nH x y s).cfg.offsetY =
        s.cfg.offsetY + (y - s.lastY) * (nH / rh) ∧
      (handleMove (some (rw, rh)) nW nH x y s).lastX = x ∧
      (handleMove (some (rw, rh)) nW nH x y s).lastY = y ∧
      (handleMove (some (rw, rh)) nW nH x y s).isDragging = true) ∧
    (s.isDragging = false → handleMove rect nW nH x y s = s) ∧
    ((handleEnd s).isDragging = false ∧ (handleEnd s).cfg = s.cfg) ∧
    ((runEvents true (some (100, 100)) 200 200
        { isDragging := false, lastX := 0, lastY := 0,
          cfg := { defaultConfig with offsetX := a, offsetY := b } }
        [PEvent.down 10 10, PEvent.move 15 14, PEvent.up,
         PEvent.move 100 100, PEvent.move 7 7]).cfg.offsetX = a + 10 ∧
     (runEvents true (some (100, 100)) 200 200
        { isDragging := false, lastX := 0, lastY := 0,
          cfg := { defaultConfig with offsetX := a, offsetY := b } }
        [PEvent.down 10 10, PEvent.move 15 14, PEvent.up,
         PEvent.move 100 100, PEvent.move 7 7]).cfg.offsetY = b + 8 ∧
     (runEvents true (some (100, 100)) 200 200
        { isDragging := false, lastX := 0, lastY := 0,
          cfg := { defaultConfig with offsetX := a, offsetY := b } }
        [PEvent.down 10 10, PEvent.move 15 14, PEvent.up,
         PEvent.move 100 100, PEvent.move 7 7]).isDragging = false) := by
  refine ⟨rfl, ⟨rfl, rfl, rfl, rfl⟩, ?_, ?_, ⟨rfl, rfl⟩, ?_, ?_, ?_⟩
  · intro h
    simp [handleMove, h, updateConfig]
  · intro h
    simp [handleMove, h]
  · show ({ defaultConfig with offsetX := a, offsetY := b } :
        OverlayConfig).offsetX + (15 - 10) * ((200 : ℚ) / 100) = a + 10
    norm_num
  · show ({ defaultConfig with offsetX := a, offsetY := b } :
        OverlayConfig).offsetY + (14 - 10) * ((200 : ℚ) / 100) = b + 8
    norm_num
  · rfl

/-- Witness for `gesture_state_machine`: the dragging move at concrete values
and the no-op of a move while not dragging. -/
theorem gesture_state_machine_witness :
    (handleMove (some ((100 : ℚ), 100)) 200 200 15 14
        { isDragging := true, lastX := 10, lastY := 10,
          cfg := defaultConfig }).cfg.offsetX =
      defaultConfig.offsetX + ((15 : ℚ) - 10) * (200 / 100) ∧
    handleMove (some ((100 : ℚ), 100)) 200 200 15 14
        { isDragging := false, lastX := 10, lastY := 10,
          cfg := defaultConfig } =
      { isDragging := false, lastX := 10, lastY := 10,
        cfg := defaultConfig } := by
  refine ⟨?_, ?_⟩
  · exact ((gesture_state_machine 15 14 200 200 100 100 0 0 (some (100, 100))
      { isDragging := true, lastX := 10, lastY := 10,
        cfg := defaultConfig }).2.2.1 rfl).1
  · exact (gesture_state_machine 15 14 200 200 100 100 0 0 (some (100, 100))
      { isDragging := false, lastX := 10, lastY := 10,
        cfg := defaultConfig }).2.2.2.1 rfl


/-- Claim C5, counterexample: before any render has completed, with the canvas
element mounted (default 300×150, nothing drawn) and untainted, `exportImage`
succeeds instead of failing — `toDataURL` happily encodes the blank default
canvas. -/
theorem export_before_render_succeeds_cex :
    initialCanvas.base = none ∧
    initialCanvas.tainted = false ∧
    exportImage (some initialCanvas) ≠ none := by
  refine ⟨rfl, rfl, ?_⟩
  simp [exportImage, initialCanvas]

/-- Claim C5, amended: `exportImage` fails (returns null) exactly when the
canvas element is unavailable or the canvas is cross-origin-tainted; the
failure is surfaced to the caller — `handleDownload` shows the failure alert
exactly on a null export; and after a completed render of an untainted canvas
the export is an encoded image at the background's native resolution.  A call
before the first render with the canvas mounted and untainted succeeds with
the default blank canvas rather than failing. -/
theorem export_failure_modes
    (c : Option CanvasSnap) (bg : Bitmap) (fg : Option Bitmap)
    (cfg : OverlayConfig) :
    (exportImage c = none ↔
      c = none ∨ ∃ cv, c = some cv ∧ cv.tainted = true) ∧
    (handleDownload (exportImage c) = DownloadOutcome.alerted ↔
      exportImage c = none) ∧
    ((drawCanvas bg fg cfg).tainted = false →
      exportImage (some (drawCanvas bg fg cfg)) =
        some { width := bg.width, height := bg.height, base := some bg,
               fgCmd := (drawCanvas bg fg cfg).fgCmd }) := by
  refine ⟨?_, ?_, ?_⟩
  · cases c with
    | none => simp [exportImage]
    | some cv =>
        cases h : cv.tainted <;> simp [exportImage, h]
  · cases hc : exportImage c <;> simp [handleDownload, hc]
  · intro h
    have hstep : exportImage (some (drawCanvas bg fg cfg)) =
        if (drawCanvas bg fg cfg).tainted = true then none
        else some { width := bg.width, height := bg.height, base := some bg,
                    fgCmd := (drawCanvas bg fg cfg).fgCmd } := rfl
    rw [hstep, h]
    simp

/-- Witness for `export_failure_modes`: exporting right after a
background-only render of an untainted 100×100 photo yields the 100×100
encoding. -/
theorem export_failure_modes_witness :
    exportImage (some (drawCanvas ⟨100, 100, false⟩ none defaultConfig)) =
      some { width := 100, height := 100, base := some ⟨100, 100, false⟩,
             fgCmd := none } :=
  (export_failure_modes (some (drawCanvas ⟨100, 100, false⟩ none defaultConfig))
    ⟨100, 100, false⟩ none defaultConfig).2.2 rfl

/-- Claim C9: when a generation request fails (null result or a thrown error),
`handleGenerate` leaves the prompt text and the design history unchanged, and
either sets a user-facing error message or was a guarded no-op (blank prompt
or an already in-flight generation); the history grows only on a successful
result. -/
theorem generation_failure_preserves_state
    (s : GenState) (o : Option String) (i : String) (res : GenResult) :
    ((res = GenResult.noImage ∨ res = GenResult.exn) →
      (handleGenerate s o res i).prompt = s.prompt ∧
      (handleGenerate s o res i).history = s.history ∧
      (((handleGenerate s o res i).error).isSome = true ∨
        handleGenerate s o res i = s)) ∧
    ((handleGenerate s o res i).history.length > s.history.length →
      ∃ u, res = GenResult.ok u) := by
  by_cases hb : (strTrim (finalPromptOf s o) = "" ∨ s.isGenerating = true)
  · constructor
    · intro _
      refine ⟨?_, ?_, Or.inr ?_⟩ <;> simp [handleGenerate, hb]
    · intro hlen
      exfalso
      revert hlen
      simp [handleGenerate, hb]
  · constructor
    · intro hres
      rcases hres with rfl | rfl <;>
        exact ⟨by simp [handleGenerate, hb], by simp [handleGenerate, hb],
          Or.inl (by simp [handleGenerate, hb])⟩
    · intro hlen
      cases res with
      | ok u => exact ⟨u, rfl⟩
      | noImage =>
          exfalso
          revert hlen
          simp [handleGenerate, hb]
      | exn =>
          exfalso
          revert hlen
          simp [handleGenerate, hb]

/-- Witness for `generation_failure_preserves_state`: a null generation result
on a fresh state with prompt "rose" keeps the prompt and the empty history and
sets an error message; and a successful result is the only way the history can
grow. -/
theorem generation_failure_preserves_state_witness :
    (handleGenerate
        { prompt := "rose", selectedStyle := TattooStyle.fineLine,
          isGenerating := false, error := none, history := [],
          activeDesignId := none }
        none GenResult.noImage "42").prompt = "rose" ∧
    (handleGenerate
        { prompt := "rose", selectedStyle := TattooStyle.fineLine,
          isGenerating := false, error := none, history := [],
          activeDesignId := none }
        none GenResult.noImage "42").history = [] ∧
    (((handleGenerate
        { prompt := "rose", selectedStyle := TattooStyle.fineLine,
          isGenerating := false, error := none, history := [],
          activeDesignId := none }
        none GenResult.noImage "42").error).isSome = true ∨
      handleGenerate
        { prompt := "rose", selectedStyle := TattooStyle.fineLine,
          isGenerating := false, error := none, history := [],
          activeDesignId := none }
        none GenResult.noImage "42" =
        { prompt := "rose", selectedStyle := TattooStyle.fineLine,
          isGenerating := false, error := none, history := [],
          activeDesignId := none }) ∧
    (∃ u, GenResult.ok "img" = GenResult.ok u) := by
  obtain ⟨h1, -⟩ := generation_failure_preserves_state
    { prompt := "rose", selectedStyle := TattooStyle.fineLine,
      isGenerating := false, error := none, history := [],
      activeDesignId := none }
    none "42" GenResult.noImage
  obtain ⟨hp, hh, he⟩ := h1 (Or.inl rfl)
  refine ⟨hp, hh, he, ?_⟩
  exact (generation_failure_preserves_state
    { prompt := "rose", selectedStyle := TattooStyle.fineLine,
      isGenerating := false, error := none, history := [],
      activeDesignId := none }
    none "42" (GenResult.ok "img")).2 (by decide)
